import Mathlib

/-!
# Verification of the PyProcessFOAM dictionary parser / serializer

Shallow embedding of the OpenFOAM-dictionary reading and writing code of the
repository (`file_io_functions.py`, `foam_file.py`, `replace.py`) as executable
Lean definitions, together with theorems settling the specification claims.

Python strings are modelled as `String`, Python lists of lines as `List String`,
Python `int` as `Int` where a counter can in principle go negative, and every
Python-level exception as an `Except PyError` result.  Loops are modelled as
structural recursion over the iterated list; the one genuinely unbounded loop
(`read_all_dicts`) receives an explicit fuel parameter and returns `none` when
the fuel runs out, i.e. when the source loop has not terminated.
-/

namespace PyFoam

/-- The Python exceptions the embedded code can raise. -/
inductive PyError where
  | typeError
  | attributeError
  | valueError
  | keyError
  | indexError
  | unboundLocalError
  deriving Repr, DecidableEq

/-- Python `\s` whitespace characters (` `, `\t`, `\n`, `\r`, `\x0b`, `\x0c`). -/
def isPyWs (c : Char) : Bool :=
  c == ' ' || c == '\t' || c == '\n' || c == '\r' || c == '\x0b' || c == '\x0c'

/-- Python `str.strip()`: remove leading and trailing whitespace. -/
def pyStrip (s : String) : String :=
  String.mk (((s.data.dropWhile isPyWs).reverse.dropWhile isPyWs).reverse)

/-- Python `str.lstrip()`: remove leading whitespace. -/
def pyLStrip (s : String) : String :=
  String.mk (s.data.dropWhile isPyWs)

/-- Predicate `startsWithL s pat`: does the character list `s` start with `pat`? -/
def startsWithL : List Char → List Char → Bool
  | _, [] => true
  | [], _ :: _ => false
  | c :: cs, p :: ps => c == p && startsWithL cs ps

/-- Predicate `subOccurs pat s`: does `pat` occur as a contiguous sublist of `s`? -/
def subOccurs (pat : List Char) : List Char → Bool
  | [] => startsWithL [] pat
  | c :: cs => startsWithL (c :: cs) pat || subOccurs pat cs

/-- Python `pat in s` for strings: substring containment
(always true for the empty pattern). -/
def pyIn (pat s : String) : Bool :=
  subOccurs pat.data s.data

/-- Python `' '.join(args)`. -/
def pyJoinSpace : List String → String
  | [] => ""
  | [s] => s
  | s :: rest => s ++ " " ++ pyJoinSpace rest

/-- Python `s.split(' ')[0]`: the characters before the first space. -/
def takeBeforeSpace (s : String) : String :=
  String.mk (s.data.takeWhile (fun c => !(c == ' ')))

/-- Python `s.split(' ')[-1]`: the characters after the last space. -/
def afterLastSpace (s : String) : String :=
  String.mk ((s.data.reverse.takeWhile (fun c => !(c == ' '))).reverse)

/-- Python `s.split(';', 1)[0]`: the characters before the first `;`
(the whole string when no `;` occurs). -/
def takeBeforeSemi (s : String) : String :=
  String.mk (s.data.takeWhile (fun c => !(c == ';')))

/-- Python `dict[k] = v` on a dict modelled as an insertion-ordered
association list: overwrite in place if the key exists, else append. -/
def pyDictInsert {α : Type} (d : List (String × α)) (k : String) (v : α) :
    List (String × α) :=
  if d.any (fun p => p.1 == k) then
    d.map (fun p => if p.1 == k then (k, v) else p)
  else
    d ++ [(k, v)]

/-- Python `dict[k]` lookup (`none` models a `KeyError` site). -/
def pyDictGet {α : Type} (d : List (String × α)) (k : String) : Option α :=
  (d.find? (fun p => p.1 == k)).map (fun p => p.2)

/-!
## `file_io_functions.read_first_dict`

The brace-matching scan.  The source iterates over the lines with index `i`
and a counter `open_braces`, with exactly these branches:

* `open_braces == 0 and '{' in line`: mark found, name := `input_list[i-1].strip()`
  (Python's `[-1]` wraps to the *last* line when `i == 0`), increment;
* `open_braces > 0 and '{' in line`: increment, append the line to `content`;
* `open_braces > 1 and '}' in line`: decrement, append;
* `open_braces > 0`: append;
* otherwise: `end_id := i` and `break`.

`end_id` starts at `-1` and is only assigned at the `break`, and the function
returns `input_list[end_id + 1:]` as the remaining lines, so a loop that runs
off the end of the input yields the *full* input as remainder.  The successive
values of `open_braces` are recorded in `depths` (instrumentation used to state
the depth invariant; `read_first_dict` itself projects them away).
-/

/-- Result of the `read_first_dict` scan, with the trace of counter values. -/
structure RfdOut where
  name : String
  content : List String
  found : Bool
  rem : List String
  depths : List Int
  deriving Repr, DecidableEq

/-- The `for i, line in enumerate(input_list)` loop of `read_first_dict`. -/
def rfdLoop (full : List String) :
    List String → Nat → Int → Bool → List String → String → List Int → RfdOut
  | [], _i, _ob, found, content, name, depths =>
      { name := name, content := content, found := found, rem := full,
        depths := depths }
  | line :: rest, i, ob, found, content, name, depths =>
    if ob = 0 ∧ pyIn "\x7b" line = true then
      rfdLoop full rest (i + 1) (ob + 1) true content
        (pyStrip (if i = 0 then full.getLastD "" else full.getD (i - 1) ""))
        (depths ++ [ob + 1])
    else if 0 < ob ∧ pyIn "\x7b" line = true then
      rfdLoop full rest (i + 1) (ob + 1) found (content ++ [line]) name
        (depths ++ [ob + 1])
    else if 1 < ob ∧ pyIn "\x7d" line = true then
      rfdLoop full rest (i + 1) (ob - 1) found (content ++ [line]) name
        (depths ++ [ob - 1])
    else if 0 < ob then
      rfdLoop full rest (i + 1) ob found (content ++ [line]) name
        (depths ++ [ob])
    else
      { name := name, content := content, found := found,
        rem := full.drop (i + 1), depths := depths ++ [ob] }

/-- Embedding of `file_io_functions.read_first_dict` (also `replace.read_dict_from_list`,
which has the same loop): returns `(name, content, found_dict, rem_list)`. -/
def read_first_dict (input : List String) :
    String × List String × Bool × List String :=
  match rfdLoop input input 0 0 false [] "" [0] with
  | r => (r.name, r.content, r.found, r.rem)

/-- The successive values taken by the `open_braces` counter during a run of
`read_first_dict` (starting value 0 included). -/
def rfdDepths (input : List String) : List Int :=
  (rfdLoop input input 0 0 false [] "" [0]).depths

/-!
## `file_io_functions.read_all_dicts`

`while found_dict is True: name, content, found_dict, input_list =
read_first_dict(input_list); dicts[name] = content`.  The loop need not
terminate, so it gets fuel; `none` means the source loop has not terminated
within the given fuel.
-/

/-- One `while` iteration of `read_all_dicts`, driven by fuel. -/
def readAllDictsAux :
    Nat → List String → List (String × List String) →
      Option (List (String × List String))
  | 0, _, _ => none
  | fuel + 1, input, acc =>
    match read_first_dict input with
    | (name, content, found, rem) =>
      let acc' := pyDictInsert acc name content
      if found then readAllDictsAux fuel rem acc' else some acc'

/-- Embedding of `file_io_functions.read_all_dicts` (also `replace.read_dicts_from_list`). -/
def read_all_dicts (fuel : Nat) (input : List String) :
    Option (List (String × List String)) :=
  readAllDictsAux fuel input []

/-- On the two-line input `{` / `}` the `while` loop of `read_all_dicts` never
terminates: each iteration reproduces the full input with `found = true`. -/
theorem readAllDictsAux_braces_none (fuel : Nat) :
    ∀ acc, readAllDictsAux fuel ["\x7b\n", "\x7d\n"] acc = none := by
  induction fuel with
  | zero => intro acc; rfl
  | succ n ih => intro acc; exact ih _

/-- C1: the spec claims that iterating `extract_first` over its own
`remaining_lines` terminates with `found = false` and enumerates every
top-level dictionary once.  The code violates this: on `["{", "}"]` the scan
never decrements the depth counter at depth 1, runs off the end of the input,
and returns the *full* input as remainder with `found = true`, so the driving
loop of `read_all_dicts` never terminates. -/
theorem c1_enumeration_nonterminating :
    read_first_dict ["\x7b\n", "\x7d\n"] = ("\x7d", ["\x7d\n"], true, ["\x7b\n", "\x7d\n"]) ∧
    ∀ fuel, read_all_dicts fuel ["\x7b\n", "\x7d\n"] = none :=
  ⟨rfl, fun fuel => readAllDictsAux_braces_none fuel []⟩

/-- C2: the spec claims the scan stops at the closing brace that returns the
depth to 0, does not append that line, and returns exactly the lines after it.
The code violates both halves: on a well-formed dictionary whose name line
comes first the scan breaks at the name line (a depth-0 line without `{`) and
reports `found = false`; and when the `{` line comes first the closing `}` IS
appended to the content and the remainder is the entire input. -/
theorem c2_closing_brace_bug :
    read_first_dict ["d\n", "\x7b\n", "x;\n", "\x7d\n"] =
      ("", [], false, ["\x7b\n", "x;\n", "\x7d\n"]) ∧
    read_first_dict ["\x7b\n", "x;\n", "\x7d\n"] =
      ("\x7d", ["x;\n", "\x7d\n"], true, ["\x7b\n", "x;\n", "\x7d\n"]) :=
  ⟨rfl, rfl⟩

/-- Appending a nonnegative value to a list of nonnegative values. -/
theorem depths_append_nonneg {depths : List Int} {v : Int}
    (hd : ∀ d ∈ depths, 0 ≤ d) (hv : 0 ≤ v) :
    ∀ d ∈ depths ++ [v], 0 ≤ d := by
  intro d hdm
  rcases List.mem_append.mp hdm with h | h
  · exact hd d h
  · simp only [List.mem_singleton] at h
    omega

/-- Invariant of the `read_first_dict` scan: if the counter is nonnegative on
entry (and every recorded value is), every recorded counter value stays
nonnegative.  The only decrement is guarded by `1 < open_braces`. -/
theorem rfdLoop_depths_nonneg (full : List String) :
    ∀ (rest : List String) (i : Nat) (ob : Int) (found : Bool)
      (content : List String) (name : String) (depths : List Int),
      0 ≤ ob → (∀ d ∈ depths, 0 ≤ d) →
      ∀ d ∈ (rfdLoop full rest i ob found content name depths).depths, 0 ≤ d := by
  intro rest
  induction rest with
  | nil =>
    intro i ob found content name depths _hob hd
    simpa [rfdLoop] using hd
  | cons line rest ih =>
    intro i ob found content name depths hob hd
    simp only [rfdLoop]
    split
    · next h =>
      exact ih _ _ _ _ _ _ (by omega) (depths_append_nonneg hd (by omega))
    · split
      · next h =>
        exact ih _ _ _ _ _ _ (by omega) (depths_append_nonneg hd (by omega))
      · split
        · next h =>
          obtain ⟨h1, _⟩ := h
          exact ih _ _ _ _ _ _ (by omega) (depths_append_nonneg hd (by omega))
        · split
          · next h =>
            exact ih _ _ _ _ _ _ hob (depths_append_nonneg hd hob)
          · simpa using depths_append_nonneg hd hob

/-- C8 counterexample: far from raising a `FormatError`, a closing brace at
depth 0 makes `read_first_dict` break out of its loop and return normally with
`found = false` (the code contains no `FormatError` or raise of any kind). -/
theorem c8_depth_counterexample :
    read_first_dict ["\x7d\n", "a\n"] = ("", [], false, ["a\n"]) :=
  rfl

/-- C8 amended: the depth counter indeed never becomes negative (its only
decrement is guarded by `open_braces > 1`), but a closing brace encountered at
depth 0 ends the scan immediately as a normal `found = false` return — the
offending line is consumed and not appended to the content — rather than
raising a `FormatError`. -/
theorem c8_depth_amended :
    (∀ input : List String, ∀ d ∈ rfdDepths input, 0 ≤ d) ∧
    (∀ (line : String) (rest : List String),
      pyIn "\x7d" line = true → pyIn "\x7b" line = false →
      read_first_dict (line :: rest) = ("", [], false, rest)) := by
  constructor
  · intro input d hdm
    refine rfdLoop_depths_nonneg input input 0 0 false [] "" [0] le_rfl ?_ d hdm
    intro x hx
    simp only [List.mem_singleton] at hx
    omega
  · intro line rest _hclose hopen
    simp [read_first_dict, rfdLoop, hopen]

/-- Witness for C8: both parts of the amended claim applied at concrete
inputs — the depth value 1 recorded on input `["{"]` is nonnegative, and a
lone `}` line yields a normal `found = false` return. -/
theorem c8_depth_witness :
    (0 ≤ (1 : Int)) ∧ read_first_dict ["\x7d"] = ("", [], false, []) :=
  ⟨c8_depth_amended.1 ["\x7b"] 1 (by decide),
   c8_depth_amended.2 "\x7d" [] (by decide) (by decide)⟩

/-!
## `file_io_functions.read_dict`

The source is mangled: the call to `read_first_dict` sits *inside* the
`for i, line in enumerate(input_list)` loop, so it runs once per original
line; `dict_name` is overwritten by the returned name on every iteration
(and `'' in line` is always true in Python); `input_list` is re-sliced with
`input_list[i:]` against its *current* value while the loop keeps iterating
over the original object; and `rem_list` is only bound inside the loop, so an
empty input raises `UnboundLocalError` at the `return`.
-/

/-- The loop of `read_dict`; iterates over the original lines with index `i`
while threading the mutated `input_list`, `dict_name`, `content`,
`found_dict` and (optional, initially unbound) `rem_list`. -/
def readDictLoop :
    List String → Nat → List String → String → List String → Bool →
      Option (List String) →
      List String × Bool × Option (List String)
  | [], _i, _inputList, _dictName, content, found, rem => (content, found, rem)
  | line :: rest, i, inputList, dictName, _content, _found, _rem =>
    let inputList' := if pyIn dictName line = true then inputList.drop i
                      else inputList
    match read_first_dict inputList' with
    | (name, content, found, remList) =>
      readDictLoop rest (i + 1) inputList' name content found (some remList)

/-- Embedding of `file_io_functions.read_dict`: returns `(content, found_dict, rem_list)`;
`rem_list` unbound (empty input) is an `UnboundLocalError`. -/
def read_dict (dictName : String) (input : List String) :
    Except PyError (List String × Bool × List String) :=
  match readDictLoop input 0 input dictName [] false none with
  | (_, _, none) => .error .unboundLocalError
  | (content, found, some rem) => .ok (content, found, rem)

/-- C9: the spec claims that requesting an absent named dictionary returns
`found = false` with the remainder unchanged.  The code violates both parts:
with target `"zzz"` absent from the input, `["{"]` yields `found = true`
(because `dict_name` is clobbered and `read_first_dict` runs on every
iteration), and `["a"]` yields remainder `[]` instead of the original input. -/
theorem c9_missing_dict_bug :
    read_dict "zzz" ["\x7b\n"] = .ok ([], true, ["\x7b\n"]) ∧
    read_dict "zzz" ["a\n"] = .ok ([], false, []) :=
  ⟨rfl, rfl⟩

/-!
## `file_io_functions.read_foam_header` and the specialized readers

The header loop body is `header.append(line)` followed by
`if re.search('^// *') in line`, which calls `re.search` with only a pattern
and no string argument: a `TypeError` on the very first iteration.  Likewise
the comment-stripping comprehensions test `re.search('^\s*//')` with no
string, a `TypeError` as soon as one element is examined.
-/

/-- The loop of `read_foam_header`: append, then evaluate the broken
sentinel test (`re.search` with a missing string argument). -/
def readFoamHeaderLoop (header : List String) :
    List String → Except PyError (List String)
  | [] => .ok header
  | line :: _rest =>
    let _header' := header ++ [line]
    .error .typeError

/-- Embedding of `file_io_functions.read_foam_header`. -/
def read_foam_header (input : List String) : Except PyError (List String) :=
  readFoamHeaderLoop [] input

/-- The comprehension `[line for line in l if not re.search('^\s*//')]`:
evaluating the condition on any element raises `TypeError` (missing string
argument), so only the empty list survives. -/
def commentFilter (l : List String) : Except PyError (List String) :=
  match l with
  | [] => .ok []
  | _line :: _rest => .error .typeError

/-- Values stored in the python dicts built by the specialized readers:
either a block of lines or a single string. -/
inductive PyVal where
  | lines (l : List String)
  | str (s : String)
  deriving Repr, DecidableEq

/-- Embedding of `file_io_functions.read_boundary_conditions`, with fuel for the
`read_all_dicts` loops; `none` from those loops means the source diverges. -/
def read_boundary_conditions (fuel : Nat) (input : List String) :
    Except PyError (Option (List (String × PyVal))) := do
  let header ← read_foam_header input
  let bc : List (String × PyVal) := [("header", PyVal.lines header)]
  let rest := input.drop header.length
  let noComments ← commentFilter rest
  let bc := noComments.foldl (fun b line =>
      let b' := if pyIn "dimensions" line = true then
          pyDictInsert b "dimensions" (PyVal.str line)
        else b
      if pyIn "internalField" line = true then
        pyDictInsert b' "internalField" (PyVal.str line)
      else b') bc
  match read_all_dicts fuel rest with
  | none => pure none
  | some fileDicts =>
    match pyDictGet fileDicts "boundaryField" with
    | none => .error .keyError
    | some bfList =>
      match read_all_dicts fuel bfList with
      | none => pure none
      | some patches =>
        pure (some (patches.foldl
          (fun b p => pyDictInsert b p.1 (PyVal.lines p.2)) bc))

/-- Python `str.split()`: split on whitespace runs, no empty tokens. -/
def pyWordsAux (acc : List Char) : List Char → List String
  | [] => if acc.isEmpty then [] else [String.mk acc.reverse]
  | c :: cs =>
    if isPyWs c then
      if acc.isEmpty then pyWordsAux [] cs
      else String.mk acc.reverse :: pyWordsAux [] cs
    else pyWordsAux (c :: acc) cs

/-- Python `s.split()` (no separator argument). -/
def pySplitWs (s : String) : List String :=
  pyWordsAux [] s.data

/-- Python `line.split()[1][:-1]` from the model-scanning loop: `IndexError` when the
line has fewer than two whitespace-separated tokens. -/
def modelToken (line : String) : Except PyError String :=
  match (pySplitWs line).get? 1 with
  | none => .error .indexError
  | some t => .ok (t.dropRight 1)

/-- The model-selection scan of `read_transport_properties`: for each line,
record `transportModel` / `rheologyModel` / `structureModel` tokens. -/
def scanModels (tp : List (String × PyVal)) :
    List String → Except PyError (List (String × PyVal))
  | [] => .ok tp
  | line :: rest => do
    let tp1 ← if pyIn "transportModel" line = true then do
        let t ← modelToken line
        pure (pyDictInsert tp "transportModel" (PyVal.str t))
      else pure tp
    let tp2 ← if pyIn "rheologyModel" line = true then do
        let t ← modelToken line
        pure (pyDictInsert tp1 "rheologyModel" (PyVal.str t))
      else pure tp1
    let tp3 ← if pyIn "structureModel" line = true then do
        let t ← modelToken line
        pure (pyDictInsert tp2 "structureModel" (PyVal.str t))
      else pure tp2
    scanModels tp3 rest

/-- Embedding of `file_io_functions.read_transport_properties`.  Its final loop
`for key in tp_dict` starts with key `"header"` and unpacks the 3-tuple
returned by `read_dict` into two targets, so the first iteration always
raises: the `read_dict` error if any, else `ValueError` from the unpacking. -/
def read_transport_properties (input : List String) :
    Except PyError (List (String × PyVal)) := do
  let header ← read_foam_header input
  let tp : List (String × PyVal) := [("header", PyVal.lines header)]
  let rest := input.drop header.length
  let noComments ← commentFilter rest
  let _tp' ← scanModels tp noComments
  match read_dict "headerCoeffs" noComments with
  | .error e => .error e
  | .ok _ => .error .valueError

/-- C10: `read_foam_header` raises `TypeError` on every non-empty input (its
sentinel test calls `re.search` with no string argument) and returns the empty
header exactly on empty input; consequently `read_boundary_conditions` and
`read_transport_properties`, which call it first, raise `TypeError` on every
non-empty input. -/
theorem c10_header_typeerror :
    (read_foam_header [] = .ok []) ∧
    (∀ (x : String) (xs : List String),
      read_foam_header (x :: xs) = .error .typeError) ∧
    (∀ (fuel : Nat) (x : String) (xs : List String),
      read_boundary_conditions fuel (x :: xs) = .error .typeError) ∧
    (∀ (x : String) (xs : List String),
      read_transport_properties (x :: xs) = .error .typeError) :=
  ⟨rfl, fun _ _ => rfl, fun _ _ _ => rfl, fun _ _ => rfl⟩

/-!
## `foam_file.FoamDimensions`

`RE_DIM = re.compile('\s*\[\s*([-+]?\d\s*)*\]\s*')` used with `re.match`,
i.e. anchored at the start of the string.  On a match the code evaluates
`dim_match.group[0]` — subscripting the bound method `group` — which raises
`TypeError`; on no match it produces the empty string.
-/

/-- Matcher for the part of the dimension pattern after the opening `[`:
`\s*([-+]?\d\s*)*\]` (each item is an optional sign followed by a single
digit and optional whitespace), ending at the closing `]`. -/
def dimRest : List Char → Bool
  | [] => false
  | c :: cs =>
    if isPyWs c then dimRest cs
    else if c == ']' then true
    else if c == '-' || c == '+' then
      match cs with
      | d :: cs' => d.isDigit && dimRest cs'
      | [] => false
    else if c.isDigit then dimRest cs
    else false

/-- Python `re.match` of the dimension pattern `\s*\[\s*([-+]?\d\s*)*\]\s*`:
a prefix of the string matches (the trailing `\s*` always matches empty). -/
def dimMatch (s : String) : Bool :=
  match (s.data.dropWhile isPyWs) with
  | '[' :: rest => dimRest rest
  | _ => false

/-- Embedding of `FoamDimensions.__new__`: on an anchored match the broken
`dim_match.group[0]` access raises `TypeError`; otherwise the result is the
empty string. -/
def foamDimensionsNew (inputStr : String) : Except PyError String :=
  if dimMatch inputStr then .error .typeError else .ok ""

/-!
## `foam_file.FoamVector` and its subclasses

`FoamVector.__new__` evaluates `cls.RE_DIM.match(input_str)`, but neither
`FoamVector` nor its base `str` defines an attribute `RE_DIM` (the class only
defines `RE_VECTOR`), so every construction raises `AttributeError` before the
input is examined.  `FoamUniformVector.__new__` and `FoamUniformScalar.__new__`
call it via `super().__new__` and so inherit the failure.
-/

/-- Embedding of `FoamVector.__new__`: unconditional `AttributeError` from the undefined
`cls.RE_DIM` lookup. -/
def foamVectorNew (_inputStr : String) : Except PyError String :=
  .error .attributeError

/-- Embedding of `FoamUniformVector.__new__`. -/
def foamUniformVectorNew (inputStr : String) : Except PyError String := do
  let vectorStr ← foamVectorNew inputStr
  if pyIn "uniform" inputStr = true ∧ vectorStr ≠ "" then
    pure ("uniform " ++ vectorStr)
  else
    pure vectorStr

/-- Embedding of `FoamUniformScalar.__new__` (same body as `FoamUniformVector`). -/
def foamUniformScalarNew (inputStr : String) : Except PyError String := do
  let vectorStr ← foamVectorNew inputStr
  if pyIn "uniform" inputStr = true ∧ vectorStr ≠ "" then
    pure ("uniform " ++ vectorStr)
  else
    pure vectorStr

/-- C4: the spec claims value classification is total and falls back to `Raw`.
The code's classifiers (`FoamUniformVector` / `FoamUniformScalar`, reached via
`FoamEntry.factory`) instead raise `AttributeError` on every input, including
all four inputs listed by the spec, because `FoamVector.__new__` dereferences
the undefined class attribute `cls.RE_DIM`. -/
theorem c4_classification_never_total :
    ∀ s : String,
      foamUniformVectorNew s = .error .attributeError ∧
      foamUniformScalarNew s = .error .attributeError :=
  fun _ => ⟨rfl, rfl⟩

/-!
## `foam_file.FoamEntry`

`__init__(self, *args)`: `args` is always a tuple, so the `isinstance(str)`
test fails and the tuple branch joins the pieces with `' '`.  Then, in source
order: strip; `name = args.split(' ')[0]`; `dimensions = FoamDimensions(args)`
(which can only yield `''` or raise `TypeError`); `value` is the text before
the first `;`, stripped, then the token after its last space.  There is no
check for a terminating `;` or for emptiness.
-/

/-- An entry as stored by `FoamEntry` (keys `name`, `dimensions`, `value`). -/
structure FoamEntry where
  name : String
  dimensions : String
  value : String
  deriving Repr, DecidableEq

/-- Embedding of `FoamEntry.__init__` on the joined argument tuple. -/
def foamEntryInit (args : List String) : Except PyError FoamEntry :=
  match foamDimensionsNew (pyStrip (pyJoinSpace args)) with
  | .error e => .error e
  | .ok dims =>
      .ok { name := takeBeforeSpace (pyStrip (pyJoinSpace args)),
            dimensions := dims,
            value := afterLastSpace
              (pyStrip (takeBeforeSemi (pyStrip (pyJoinSpace args)))) }

/-- Embedding of `FoamEntry.write`: `name`, three tab characters, the dimensions clause
when present, `value;` and a newline.  The `expandtabs(tab_length)` result is
discarded in the source, so tabs are emitted literally. -/
def foamEntryWrite (e : FoamEntry) (_tabLength : Nat) : String :=
  (if e.dimensions ≠ "" then
      e.name ++ "\t\t\t" ++ e.name ++ " " ++ e.dimensions
    else
      e.name ++ "\t\t\t") ++ e.value ++ ";" ++ "\n"

/-- C5 counterexample: the empty statement is empty after trimming, yet
`FoamEntry` construction succeeds silently (with empty name, dimensions and
value) instead of failing — no `FormatError` exists anywhere in the code. -/
theorem c5_entry_error_counterexample :
    foamEntryInit [""] = .ok { name := "", dimensions := "", value := "" } :=
  rfl

/-- C5 amended: `FoamEntry` construction checks neither for a terminating `;`
nor for emptiness and never raises a `FormatError`.  Whenever the trimmed
joined text does not begin with a bracketed dimension set it silently yields
an entry (name = text before the first space; value = token after the last
space of the text before the first `;`); its only failure mode is the
`TypeError` raised when the trimmed text does begin with a dimension set. -/
theorem c5_entry_error_amended :
    (∀ args : List String, dimMatch (pyStrip (pyJoinSpace args)) = true →
      foamEntryInit args = .error .typeError) ∧
    (∀ args : List String, dimMatch (pyStrip (pyJoinSpace args)) = false →
      foamEntryInit args =
        .ok { name := takeBeforeSpace (pyStrip (pyJoinSpace args)),
              dimensions := "",
              value := afterLastSpace
                (pyStrip (takeBeforeSemi (pyStrip (pyJoinSpace args)))) }) := by
  constructor
  · intro args h
    simp [foamEntryInit, foamDimensionsNew, h]
  · intro args h
    simp [foamEntryInit, foamDimensionsNew, h]

/-- Witness for C5: the amended claim applied at an unterminated statement
(no `;`, silently accepted) and at a statement starting with a dimension set
(the `TypeError` failure mode). -/
theorem c5_entry_error_witness :
    foamEntryInit ["abc def"] =
      .ok { name := "abc", dimensions := "", value := "def" } ∧
    foamEntryInit ["[0 0 0 0 0 0 0] x;"] = .error .typeError :=
  ⟨c5_entry_error_amended.2 ["abc def"] (by decide),
   c5_entry_error_amended.1 ["[0 0 0 0 0 0 0] x;"] (by decide)⟩

/-- C6: the spec claims the entry text `p p [0 2 -2 0 0 0 0] 0;` yields
dimensions `(0, 2, -2, 0, 0, 0, 0)` by scanning the full statement.  The code
returns `name = "p"` and `value = "0"` but an *empty* dimension string:
`FoamDimensions` only `re.match`-es its pattern anchored at the start of the
text (and its `group[0]` access would raise `TypeError` if it ever matched). -/
theorem c6_dimension_parsing_bug :
    foamEntryInit ["p p [0 2 -2 0 0 0 0] 0;"] =
      .ok { name := "p", dimensions := "", value := "0" } :=
  rfl

/-!
## `foam_file.FoamDict`

`FoamDict.read` repeats the `read_first_dict` scan but its would-be decrement
branch tests `cls.DICT_OPEN` (`{`) instead of `DICT_CLOSE`, so it can never
fire (the previous branch already catches `{` at positive depth): the depth
counter is never decremented at all.  `__init__` raises
`ValueError('No dictionary found in provided data')` when the scan reports
`found = false`, then builds one `FoamEntry` per content line, keyed by entry
name with dict-overwrite semantics.  `write(indent_space, tab_length)` emits
the name line, `{` line, each entry line and `}` line, all prefixed with the
same `indent_space`.
-/

/-- The scan loop of `FoamDict.read`; identical to `rfdLoop` except that the
third branch tests `{` (the source writes `cls.DICT_OPEN` there too), making
it unreachable. -/
def fdReadLoop (full : List String) :
    List String → Nat → Int → Bool → List String → String →
      String × List String × Bool × List String
  | [], _i, _ob, found, content, name => (name, content, found, full)
  | line :: rest, i, ob, found, content, name =>
    if ob = 0 ∧ pyIn "\x7b" line = true then
      fdReadLoop full rest (i + 1) (ob + 1) true content
        (pyStrip (if i = 0 then full.getLastD "" else full.getD (i - 1) ""))
    else if 0 < ob ∧ pyIn "\x7b" line = true then
      fdReadLoop full rest (i + 1) (ob + 1) found (content ++ [line]) name
    else if 1 < ob ∧ pyIn "\x7b" line = true then
      fdReadLoop full rest (i + 1) (ob - 1) found (content ++ [line]) name
    else if 0 < ob then
      fdReadLoop full rest (i + 1) ob found (content ++ [line]) name
    else
      (name, content, found, full.drop (i + 1))

/-- Embedding of `FoamDict.read`. -/
def foamDictRead (input : List String) :
    String × List String × Bool × List String :=
  fdReadLoop input input 0 0 false [] ""

/-- A `FoamDict`: its `name` and `content` keys, the content being an
insertion-ordered mapping from entry name to entry. -/
structure FoamDict where
  name : String
  content : List (String × FoamEntry)
  deriving Repr, DecidableEq

/-- Embedding of `FoamDict.__init__` on the argument lines. -/
def foamDictInit (args : List String) : Except PyError FoamDict :=
  match foamDictRead args with
  | (name, content, found, _rem) =>
    if found = false then .error .valueError
    else do
      let entries ← content.foldlM (fun acc line => do
          let e ← foamEntryInit [line]
          pure (pyDictInsert acc e.name e)) ([] : List (String × FoamEntry))
      pure { name := name, content := entries }

/-- Embedding of `FoamDict.write`: every emitted line — name, braces and each entry — is
prefixed with the same caller-supplied `indentSpace`. -/
def foamDictWrite (d : FoamDict) (indentSpace : String) (tabLength : Nat) :
    String :=
  (d.content.foldl (fun acc kv => acc ++ indentSpace ++ foamEntryWrite kv.2 tabLength)
      (indentSpace ++ d.name ++ "\n" ++ indentSpace ++ "\x7b" ++ "\n"))
    ++ indentSpace ++ "\x7d" ++ "\n"

/-- C3: the spec claims `serialize(parse(T)) == T` for canonically formatted
text.  The code cannot even parse canonical text: `FoamDict.read` breaks on
the name line (a depth-0 line without `{`) with `found = false`, so
`FoamDict.__init__` raises `ValueError` on every canonically formatted input
and no round trip exists. -/
theorem c3_roundtrip_bug :
    foamDictInit ["p\n", "\x7b\n", "    a    1;\n", "\x7d\n"] = .error .valueError :=
  rfl

/-!
## `file_io_functions.construct_foam_dict`

For each `(key, content)` pair the indentation of the emitted name and brace
lines is computed *from the original text*: it is the leading whitespace of
`content[0]` minus one tab stop (`FOAM_TAB_SIZE = 4`), floored at 0; the
content lines are emitted verbatim.  `content[0]` on an empty content list is
an `IndexError`.
-/

/-- Constant `FOAM_TAB_SIZE` from the source. -/
def FOAM_TAB_SIZE : Int := 4

/-- Python `len(content[0]) - len(content[0].lstrip())`: the leading-whitespace
width of a line. -/
def leadingIndent (s : String) : Nat :=
  s.length - (pyLStrip s).length

/-- The padding `' ' * max(0, leadingIndent(c0) - FOAM_TAB_SIZE)` applied by
`str.rjust` to the name and brace lines. -/
def dictPad (c0 : String) : String :=
  String.mk (List.replicate (max 0 ((leadingIndent c0 : Int) - FOAM_TAB_SIZE)).toNat ' ')

/-- `file_io_functions.construct_foam_dict` (input already checked to be a
python dict by the caller-facing `isinstance` guard). -/
def construct_foam_dict (inDict : List (String × List String)) :
    Except PyError (List String) :=
  inDict.foldlM (fun acc kv =>
    match kv.2.head? with
    | none => .error .indexError
    | some c0 =>
      .ok (acc ++ ([dictPad c0 ++ kv.1 ++ "\n", dictPad c0 ++ "\x7b" ++ "\n"]
        ++ kv.2 ++ [dictPad c0 ++ "\x7d" ++ "\n"]))) []

/-- C7 counterexample: `construct_foam_dict` indents the name and brace lines
by the original indentation of the first content line minus one tab stop —
derived precisely from the source text — and `FoamDict.write` renders an
entry at the *same* indentation as its parent's braces, not one tab stop
deeper. -/
theorem c7_indentation_counterexample :
    construct_foam_dict [("k", ["        x;\n"])] =
      .ok ["    k\n", "    \x7b\n", "        x;\n", "    \x7d\n"] ∧
    foamDictWrite
        { name := "d",
          content := [("a", { name := "a", dimensions := "", value := "1" })] }
        "    " 4 =
      "    d\n    \x7b\n    a\t\t\t1;\n    \x7d\n" :=
  ⟨rfl, rfl⟩

/-- Concatenation of a list of strings. -/
def strConcat : List String → String
  | [] => ""
  | s :: rest => s ++ strConcat rest

/-- The entry fold of `FoamDict.write` prefixes every entry with the given
indentation and appends to the accumulator. -/
theorem foamDictWrite_fold (indent : String) (tab : Nat) :
    ∀ (es : List (String × FoamEntry)) (acc : String),
      es.foldl (fun a kv => a ++ indent ++ foamEntryWrite kv.2 tab) acc =
        acc ++ strConcat (es.map fun kv => indent ++ foamEntryWrite kv.2 tab) := by
  intro es
  induction es with
  | nil => intro acc; simp [strConcat, String.append_empty]
  | cons kv rest ih =>
    intro acc
    rw [List.foldl_cons, ih]
    simp [strConcat, String.append_assoc]

/-- C7 amended: serialization indentation works as the code actually does.
`FoamDict.write` emits the name line, both brace lines and *every* entry line
at the very same caller-supplied indentation (children are not one tab stop
deeper), and `construct_foam_dict` derives the name/brace indentation from the
original leading whitespace of the first content line (minus one tab stop,
floored at zero), emitting the content lines verbatim. -/
theorem c7_indentation_amended :
    (∀ (d : FoamDict) (indent : String) (tab : Nat),
      foamDictWrite d indent tab =
        (indent ++ d.name ++ "\n" ++ indent ++ "\x7b" ++ "\n")
          ++ strConcat (d.content.map fun kv => indent ++ foamEntryWrite kv.2 tab)
          ++ indent ++ "\x7d" ++ "\n") ∧
    (∀ (key c0 : String) (cs : List String),
      construct_foam_dict [(key, c0 :: cs)] =
        .ok ([dictPad c0 ++ key ++ "\n", dictPad c0 ++ "\x7b" ++ "\n"]
          ++ (c0 :: cs) ++ [dictPad c0 ++ "\x7d" ++ "\n"])) := by
  constructor
  · intro d indent tab
    simp only [foamDictWrite, foamDictWrite_fold]
  · intro key c0 cs
    rfl

end PyFoam
